import Mathlib

/-!
Shallow embedding of the session-scoped command/response bridge of the
repository: `src/apiserver/cloud_pubsub.py` (class `CloudPubSubManager`)
and `src/apiserver/app.py` (the FastAPI endpoints `create_command` and
`delete_session`).

The broker (Google Cloud Pub/Sub) is modelled by explicit state: the set of
existing topic paths, subscription paths, the per-session local subscriber
registry (`self.subscribers`), the pending-message table
(`self.pending_messages`), and a log of every wire message handed to
`publisher.publish`.  Asynchronous delivery is modelled by applying the
consumer callback (`_screenshot_handler`) to explicit raw inbound messages.

A load-bearing fact of the staged source: `CloudPubSubManager.publish_message`
declares a required `timeout` parameter, but both of its callers in `app.py`
— `create_command` and `delete_session` — invoke it as
`publish_message(session_id=..., message=...)` with no `timeout`.  In Python
that call raises `TypeError` at the call site, before the adapter body runs,
and neither endpoint catches it, so under the cloud adapter every command
submission and every session deletion fails immediately with HTTP 500.  The
endpoint embeddings model this: `publish_message` itself is embedded on its
own terms (as a well-defined operation given its arguments), while
`create_command` and `delete_session` stop at the raising call.
-/

/-- JSON values, as produced by `json.loads` and consumed by the handlers. -/
inductive Json where
  | null
  | bool (b : Bool)
  | num (n : Int)
  | str (s : String)
  | arr (xs : List Json)
  | obj (fields : List (String × Json))

/-- `True` exactly on JSON objects (Python `dict`s). -/
def Json.isObj : Json → Bool
  | Json.obj _ => true
  | _ => false

/-- Association-list lookup, the read of a Python `dict` access `d[k]`. -/
def lookupKey {α : Type} : List (String × α) → String → Option α
  | [], _ => none
  | (k', v') :: rest, k => if k' = k then some v' else lookupKey rest k

/-- Association-list write, the Python `dict` assignment `d[k] = v`
(overwrites in place, appends if absent). -/
def setKey {α : Type} : List (String × α) → String → α → List (String × α)
  | [], k, v => [(k, v)]
  | (k', v') :: rest, k, v =>
    if k' = k then (k, v) :: rest else (k', v') :: setKey rest k v

/-- Field access `parsed_data[k]` on a decoded JSON value: a `KeyError`
(or indexing a non-object) is `none`. -/
def getField (j : Json) (k : String) : Option Json :=
  match j with
  | Json.obj fields => lookupKey fields k
  | _ => none

/-- Modelled from the spec: the `Message` pydantic model lives in
`models.py`, which is absent from `src/` (only its callers in `app.py` and
`cloud_pubsub.py` are present).  Per the spec's data model, a Message has a
globally unique identifier, a kind string, and an opaque payload; the
requester-side completion slot is modelled separately (`Bridge.slots`). -/
structure Message where
  id : String
  type : String
  data : Json

/-- Modelled from the spec: `message.json()` (pydantic serialization, from
the missing `models.py`) produces the wire object with fields
`id`, `type`, `data`. -/
def Message.json (m : Message) : Json :=
  Json.obj [("id", Json.str m.id), ("type", Json.str m.type), ("data", m.data)]

/-- The state of a completion slot once resolved: `set_screenshot(None)`
for a worker-reported error, or `set_screenshot(shot, url=url)`. -/
inductive Resolution where
  | failure
  | success (screenshot url : Json)

/-- One wire message handed to `publisher.publish(topic_path, data, **attributes)`. -/
structure PubRecord where
  topic : String
  data : Json
  attrs : List (String × String)

/-- The observable state of a `CloudPubSubManager` together with the broker
resources it manages.  `pending` is `self.pending_messages` (only the keys
matter to the handler's membership test; the stored `Message` objects'
completion slots are projected into `slots`, keyed by message id). -/
structure Bridge where
  projectId : String
  topics : List String
  subs : List String
  subscribers : List String
  pending : List String
  slots : List (String × Option Resolution)
  published : List PubRecord

def command_topic_path (projectId sessionId : String) : String :=
  "projects/" ++ projectId ++ "/topics/commands-" ++ sessionId

def screenshot_topic_path (projectId sessionId : String) : String :=
  "projects/" ++ projectId ++ "/topics/screenshots-" ++ sessionId

def subscription_path (projectId subscriptionId : String) : String :=
  "projects/" ++ projectId ++ "/subscriptions/screenshots-" ++ subscriptionId

/-- `_create_topic`: `get_topic` succeeding means the topic exists and is
left alone; `NotFound` leads to `create_topic`. -/
def create_topic (st : Bridge) (topicPath : String) : Bridge :=
  if topicPath ∈ st.topics then st
  else { st with topics := st.topics ++ [topicPath] }

/-- `_delete_topic`: deletes the topic, treating `NotFound` as success. -/
def delete_topic (st : Bridge) (topicPath : String) : Bridge :=
  { st with topics := st.topics.erase topicPath }

/-- `_create_subscription`: creates the subscription unless it exists. -/
def create_subscription (st : Bridge) (subscriptionPath : String) : Bridge :=
  if subscriptionPath ∈ st.subs then st
  else { st with subs := st.subs ++ [subscriptionPath] }

/-- `start_subscriber`: registers a (fresh) local subscriber client for the
session and creates a uniquely named subscription (`freshSubId` stands for
the `uuid.uuid4()` draw) on the session's screenshots topic. -/
def start_subscriber (st : Bridge) (sessionId freshSubId : String) : Bridge :=
  let st :=
    { st with subscribers :=
        if sessionId ∈ st.subscribers then st.subscribers
        else st.subscribers ++ [sessionId] }
  create_subscription st (subscription_path st.projectId freshSubId)

/-- `start_session`: creates the commands topic and the screenshots topic,
then starts a local subscriber with `_screenshot_handler`. -/
def start_session (st : Bridge) (sessionId freshSubId : String) : Bridge :=
  let st := create_topic st (command_topic_path st.projectId sessionId)
  let st := create_topic st (screenshot_topic_path st.projectId sessionId)
  start_subscriber st sessionId freshSubId

/-- `end_session`: closes and forgets the session's local subscriber if
any, then deletes both topics. -/
def end_session (st : Bridge) (sessionId : String) : Bridge :=
  let st := { st with subscribers := st.subscribers.erase sessionId }
  let st := delete_topic st (command_topic_path st.projectId sessionId)
  delete_topic st (screenshot_topic_path st.projectId sessionId)

/-- A raw inbound broker message: either bytes that decode to JSON, or
bytes on which `decode`/`json.loads` raises. -/
inductive Raw where
  | json (j : Json)
  | garbage

/-- Outcome of one invocation of the correlator's consumer callback. -/
structure HandlerOut where
  pending : List String
  slots : List (String × Option Resolution)
  acked : Bool
  raised : Bool

/-- `_screenshot_handler`: decodes the message, looks up its `id` in
`pending_messages`; if found, resolves the message's completion slot (with
an error marker when the payload carries an `error` key, else with the
`screenshot` and `url` fields) and deletes the entry; any exception in the
body is caught and logged, and `message.ack()` runs in the `finally`
clause, so every branch acks and none raises to the caller.  In the error
branch the source first evaluates `"error: " + parsed_data["error"]`, which
raises `TypeError` on a non-string error value; that exception is caught
before `set_screenshot(None)` and the `del` run, leaving the pending entry
and the slot untouched. -/
def screenshot_handler (pending : List String)
    (slots : List (String × Option Resolution)) (raw : Raw) : HandlerOut :=
  match raw with
  | Raw.garbage => ⟨pending, slots, true, false⟩
  | Raw.json parsed =>
    match getField parsed "id" with
    | some (Json.str msgId) =>
      if msgId ∈ pending then
        match getField parsed "error" with
        | some (Json.str _) =>
          ⟨pending.erase msgId, setKey slots msgId (some Resolution.failure),
            true, false⟩
        | some _ => ⟨pending, slots, true, false⟩
        | none =>
          match getField parsed "screenshot", getField parsed "url" with
          | some shot, some url =>
            ⟨pending.erase msgId,
              setKey slots msgId (some (Resolution.success shot url)),
              true, false⟩
          | _, _ => ⟨pending, slots, true, false⟩
      else ⟨pending, slots, true, false⟩
    | _ => ⟨pending, slots, true, false⟩

/-- The message id the handler would extract from a raw inbound message
(`json.loads(message.data)["id"]`), when that extraction succeeds with a
string. -/
def rawMsgId : Raw → Option String
  | Raw.garbage => none
  | Raw.json parsed =>
    match getField parsed "id" with
    | some (Json.str msgId) => some msgId
    | _ => none

inductive PublishResult where
  | ok
  | error
deriving DecidableEq

/-- The reconnect guard at the top of `publish_message`: if no local
subscriber is listening for the session on this instance, `start_session`
is called first (self-healing across horizontally scaled frontends). -/
def reconnect (st : Bridge) (sessionId freshSubId : String) : Bridge :=
  if sessionId ∈ st.subscribers then st
  else start_session st sessionId freshSubId

/-- `publish_message`: after the reconnect guard, stores the message in
`pending_messages` (registering its completion slot for the handler),
publishes the serialized message with a `message_id` attribute, and awaits
the publish future.  `publishFails` models the future raising (network or
broker failure, or the publish timeout): in that case the pending entry is
popped and the error is re-raised. -/
def publish_message (st : Bridge) (sessionId : String) (msg : Message)
    (freshSubId : String) (publishFails : Bool) : Bridge × PublishResult :=
  let st1 := reconnect st sessionId freshSubId
  let topicPath := command_topic_path st1.projectId sessionId
  let st2 := { st1 with
    pending := if msg.id ∈ st1.pending then st1.pending else st1.pending ++ [msg.id],
    slots := setKey st1.slots msg.id none,
    published := st1.published ++ [PubRecord.mk topicPath msg.json [("message_id", msg.id)]] }
  if publishFails then
    ({ st2 with pending := st2.pending.erase msg.id }, PublishResult.error)
  else (st2, PublishResult.ok)

/-- The observable outcome of `POST /sessions/.../commands`.  `typeError`
models the `TypeError` raised at the `publish_message` call itself: the
endpoint invokes `publish_message(session_id=..., message=...)` without the
`timeout` parameter that `CloudPubSubManager.publish_message` requires, so
the call raises before the adapter body runs; the exception is not caught
in `create_command` and surfaces as HTTP 500.  The remaining constructors
mirror the endpoint's written branches — `timeout` the
`asyncio.TimeoutError` handler (HTTP 408), `failed` the
`screenshot is None` branch (HTTP 500 "command failed"), `ok` the success
response — which under the cloud adapter are unreachable, since the
`TypeError` precedes them on every request. -/
inductive CommandOutcome where
  | typeError
  | timeout
  | failed
  | ok (screenshot url : Json)

/-- `create_command` (the `POST /sessions/.../commands` endpoint): dumps
the request payload, builds a `Message` of kind `command` around it, then
calls `pubsub_manager.publish_message(session_id=..., message=...)`.  With
the cloud adapter this call raises `TypeError` immediately (the required
`timeout` argument is missing), before the reconnect guard, the pending
insert, the publish or the wait on the completion slot: the bridge state
is returned unchanged and the caller sees HTTP 500. -/
def create_command (st : Bridge) (sessionId : String) (commandData : Json)
    (msgId : String) : Bridge × CommandOutcome :=
  let _msg : Message := Message.mk msgId "command" commandData
  (st, CommandOutcome.typeError)

/-- Outcome of `DELETE /sessions/...`: `ok` is the written
`DeleteSessionResponse(id=session_id)` success path, `typeError` the
`TypeError` raised at the `publish_message` call (missing `timeout`
argument), which under the cloud adapter happens on every request. -/
inductive DeleteOutcome where
  | ok (sessionId : String)
  | typeError

/-- `delete_session` (the `DELETE /sessions/...` endpoint): builds the
shutdown `Message(type="command", data="shut_down")` (its id a fresh uuid,
`msgId` here) and calls `publish_message` without the required `timeout`
argument.  With the cloud adapter the call raises `TypeError` before the
adapter body runs; nothing is published, no pending entry is created,
`end_session` never runs, and the caller sees HTTP 500. -/
def delete_session (st : Bridge) (sessionId msgId : String) :
    Bridge × DeleteOutcome :=
  let _msg : Message := Message.mk msgId "command" (Json.str "shut_down")
  (st, DeleteOutcome.typeError)

/-- Outcome of the streaming endpoint's per-message callback. -/
structure StreamHandlerOut where
  acked : Bool
  raised : Bool
  events : List Json

/-- `process_message`, the callback `stream_screenshots` registers on its
own subscriber: it calls `message.ack()` first, then decodes the payload
and appends the `screenshot` field to the buffer; a decode failure or a
missing `screenshot` key raises after the ack has already happened. -/
def process_message (raw : Raw) : StreamHandlerOut :=
  match raw with
  | Raw.garbage => ⟨true, true, []⟩
  | Raw.json parsed =>
    match getField parsed "screenshot" with
    | some shot => ⟨true, false, [shot]⟩
    | none => ⟨true, true, []⟩

/-- One iteration's environment for the streaming loop: whether
`request.is_disconnected()` reports true, and the raw messages the stream's
subscriber delivered to `process_message` since the previous iteration. -/
structure StreamStep where
  disconnected : Bool
  arrivals : List Raw

/-- Result of running the streaming loop: whether it returned (it only
returns on disconnect), whether `subscriber.close()` was called, and the
events yielded downstream. -/
structure StreamResult where
  terminated : Bool
  closed : Bool
  yielded : List Json

/-- The `while True` loop of `stream_screenshots`: each iteration first
checks for disconnect (closing the subscriber and breaking if so), then
drains the buffered messages to the client. -/
def stream_loop (steps : List StreamStep) (buffered yielded : List Json) :
    StreamResult :=
  match steps with
  | [] => StreamResult.mk false false yielded
  | s :: rest =>
    let buffered :=
      s.arrivals.foldl (fun acc r => acc ++ (process_message r).events) buffered
    if s.disconnected then StreamResult.mk true true yielded
    else stream_loop rest [] (yielded ++ buffered)

/-- `stream_screenshots`: opens a dedicated local subscriber (with a fresh
uuid-named subscription) on the session's screenshots topic, then runs the
forwarding loop until the HTTP client disconnects. -/
def stream_screenshots (st : Bridge) (sessionId freshSubId : String)
    (steps : List StreamStep) : Bridge × StreamResult :=
  (start_subscriber st sessionId freshSubId, stream_loop steps [] [])

/-- A worker's well-formed success result for message `msgId`. -/
def resultPayload (msgId : String) (shot url : Json) : Raw :=
  Raw.json (Json.obj [("id", Json.str msgId), ("screenshot", shot), ("url", url)])

/-- An empty bridge over project `p`: the frontend just booted, no session
was ever created. -/
def initBridge : Bridge :=
  Bridge.mk "p" [] [] [] [] [] []

/-! ### Helper lemmas -/

theorem lookupKey_setKey_self {α : Type} (l : List (String × α)) (k : String) (v : α) :
    lookupKey (setKey l k v) k = some v := by
  induction l with
  | nil => simp [setKey, lookupKey]
  | cons hd tl ih =>
    by_cases h : hd.1 = k
    · simp [setKey, lookupKey, h]
    · simpa [setKey, lookupKey, h] using ih

theorem erase_append_not_mem {l : List String} {a : String} (h : a ∉ l) :
    (l ++ [a]).erase a = l := by
  induction l with
  | nil => simp
  | cons b t ih =>
    have hb : b ≠ a := fun hba => h (hba ▸ List.mem_cons_self b t)
    have ht : a ∉ t := fun hat => h (List.mem_cons_of_mem b hat)
    simp [List.erase_cons, hb, ih ht]

theorem create_topic_pending (st : Bridge) (t : String) :
    (create_topic st t).pending = st.pending := by
  unfold create_topic; split <;> rfl

theorem create_topic_slots (st : Bridge) (t : String) :
    (create_topic st t).slots = st.slots := by
  unfold create_topic; split <;> rfl

theorem create_topic_published (st : Bridge) (t : String) :
    (create_topic st t).published = st.published := by
  unfold create_topic; split <;> rfl

theorem create_topic_projectId (st : Bridge) (t : String) :
    (create_topic st t).projectId = st.projectId := by
  unfold create_topic; split <;> rfl

theorem create_topic_mem_self (st : Bridge) (t : String) :
    t ∈ (create_topic st t).topics := by
  unfold create_topic; split
  · assumption
  · exact List.mem_append_right _ (List.mem_singleton.mpr rfl)

theorem create_topic_mem_mono (st : Bridge) (t u : String) (h : u ∈ st.topics) :
    u ∈ (create_topic st t).topics := by
  unfold create_topic; split
  · exact h
  · exact List.mem_append_left _ h

theorem start_subscriber_topics (st : Bridge) (sid u : String) :
    (start_subscriber st sid u).topics = st.topics := by
  unfold start_subscriber create_subscription
  dsimp only
  split <;> rfl

theorem start_subscriber_pending (st : Bridge) (sid u : String) :
    (start_subscriber st sid u).pending = st.pending := by
  unfold start_subscriber create_subscription
  dsimp only
  split <;> rfl

theorem start_subscriber_slots (st : Bridge) (sid u : String) :
    (start_subscriber st sid u).slots = st.slots := by
  unfold start_subscriber create_subscription
  dsimp only
  split <;> rfl

theorem start_subscriber_published (st : Bridge) (sid u : String) :
    (start_subscriber st sid u).published = st.published := by
  unfold start_subscriber create_subscription
  dsimp only
  split <;> rfl

theorem start_subscriber_projectId (st : Bridge) (sid u : String) :
    (start_subscriber st sid u).projectId = st.projectId := by
  unfold start_subscriber create_subscription
  dsimp only
  split <;> rfl

theorem start_session_pending (st : Bridge) (sid u : String) :
    (start_session st sid u).pending = st.pending := by
  unfold start_session
  rw [start_subscriber_pending, create_topic_pending, create_topic_pending]

theorem start_session_slots (st : Bridge) (sid u : String) :
    (start_session st sid u).slots = st.slots := by
  unfold start_session
  rw [start_subscriber_slots, create_topic_slots, create_topic_slots]

theorem start_session_published (st : Bridge) (sid u : String) :
    (start_session st sid u).published = st.published := by
  unfold start_session
  rw [start_subscriber_published, create_topic_published, create_topic_published]

theorem start_session_projectId (st : Bridge) (sid u : String) :
    (start_session st sid u).projectId = st.projectId := by
  unfold start_session
  rw [start_subscriber_projectId, create_topic_projectId, create_topic_projectId]

theorem start_session_mem_cmd (st : Bridge) (sid u : String) :
    command_topic_path st.projectId sid ∈ (start_session st sid u).topics := by
  unfold start_session
  dsimp only
  rw [start_subscriber_topics, create_topic_projectId]
  exact create_topic_mem_mono _ _ _ (create_topic_mem_self _ _)

theorem start_session_mem_ss (st : Bridge) (sid u : String) :
    screenshot_topic_path st.projectId sid ∈ (start_session st sid u).topics := by
  unfold start_session
  dsimp only
  rw [start_subscriber_topics, create_topic_projectId]
  exact create_topic_mem_self _ _

theorem reconnect_pending (st : Bridge) (sid u : String) :
    (reconnect st sid u).pending = st.pending := by
  unfold reconnect; split
  · rfl
  · exact start_session_pending st sid u

theorem reconnect_slots (st : Bridge) (sid u : String) :
    (reconnect st sid u).slots = st.slots := by
  unfold reconnect; split
  · rfl
  · exact start_session_slots st sid u

theorem reconnect_published (st : Bridge) (sid u : String) :
    (reconnect st sid u).published = st.published := by
  unfold reconnect; split
  · rfl
  · exact start_session_published st sid u

theorem reconnect_projectId (st : Bridge) (sid u : String) :
    (reconnect st sid u).projectId = st.projectId := by
  unfold reconnect; split
  · rfl
  · exact start_session_projectId st sid u

theorem end_session_pending (st : Bridge) (sid : String) :
    (end_session st sid).pending = st.pending := by
  unfold end_session delete_topic; rfl

theorem end_session_slots (st : Bridge) (sid : String) :
    (end_session st sid).slots = st.slots := by
  unfold end_session delete_topic; rfl

theorem end_session_published (st : Bridge) (sid : String) :
    (end_session st sid).published = st.published := by
  unfold end_session delete_topic; rfl

theorem publish_message_ok_eq (st : Bridge) (sid : String) (msg : Message) (u : String) :
    publish_message st sid msg u false =
      ({ reconnect st sid u with
          pending := if msg.id ∈ st.pending then st.pending else st.pending ++ [msg.id],
          slots := setKey st.slots msg.id none,
          published := st.published ++
            [PubRecord.mk (command_topic_path st.projectId sid) msg.json
              [("message_id", msg.id)]] }, PublishResult.ok) := by
  unfold publish_message
  dsimp only
  rw [reconnect_pending, reconnect_slots, reconnect_published, reconnect_projectId]
  exact if_neg Bool.false_ne_true

theorem publish_message_fail_eq (st : Bridge) (sid : String) (msg : Message) (u : String) :
    publish_message st sid msg u true =
      ({ reconnect st sid u with
          pending := (if msg.id ∈ st.pending then st.pending
                      else st.pending ++ [msg.id]).erase msg.id,
          slots := setKey st.slots msg.id none,
          published := st.published ++
            [PubRecord.mk (command_topic_path st.projectId sid) msg.json
              [("message_id", msg.id)]] }, PublishResult.error) := by
  unfold publish_message
  dsimp only
  rw [reconnect_pending, reconnect_slots, reconnect_published, reconnect_projectId]
  exact if_pos rfl

/-- Claim C6: if awaiting the publish future raises, `publish_message`
re-raises a delivery error to the caller and has popped the pending entry it
registered for `message.id`, so the pending table is as it was before the
call (the message's id being fresh, it was not pending beforehand). -/
theorem c6_publish_failure_cleanup (st : Bridge) (sid : String) (msg : Message)
    (u : String) (hp : msg.id ∉ st.pending) :
    (publish_message st sid msg u true).2 = PublishResult.error ∧
    (publish_message st sid msg u true).1.pending = st.pending := by
  rw [publish_message_fail_eq]
  refine ⟨rfl, ?_⟩
  dsimp only
  rw [if_neg hp, erase_append_not_mem hp]

theorem c6_witness :
    (publish_message initBridge "s1" (Message.mk "m1" "command" Json.null) "u1" true).2
      = PublishResult.error ∧
    (publish_message initBridge "s1" (Message.mk "m1" "command" Json.null) "u1" true).1.pending
      = [] := by
  have h := c6_publish_failure_cleanup initBridge "s1"
    (Message.mk "m1" "command" Json.null) "u1" (by simp [initBridge])
  exact h

/-- Claim C4 (counterexample): the streaming endpoint's handler on an
undecodable message: the handler raises, yet the message has already been
acknowledged (the source calls `message.ack()` before decoding), so a
throwing handler does not leave the message unacknowledged. -/
theorem c4_counterexample :
    (process_message Raw.garbage).raised = true ∧
    (process_message Raw.garbage).acked = true :=
  ⟨rfl, rfl⟩

theorem screenshot_handler_acked (pending : List String)
    (slots : List (String × Option Resolution)) (raw : Raw) :
    (screenshot_handler pending slots raw).acked = true := by
  cases raw with
  | garbage => rfl
  | json parsed =>
    unfold screenshot_handler
    dsimp only
    cases getField parsed "id" with
    | none => rfl
    | some v =>
      cases v with
      | str msgId =>
        dsimp only
        by_cases hm : msgId ∈ pending
        · rw [if_pos hm]
          cases getField parsed "error" with
          | some v => cases v <;> rfl
          | none =>
            cases getField parsed "screenshot" <;> cases getField parsed "url" <;> rfl
        · rw [if_neg hm]
      | null => rfl
      | bool b => rfl
      | num n => rfl
      | arr xs => rfl
      | obj fields => rfl

theorem process_message_acked (raw : Raw) : (process_message raw).acked = true := by
  cases raw with
  | garbage => rfl
  | json parsed =>
    unfold process_message
    dsimp only
    cases getField parsed "screenshot" <;> rfl

theorem screenshot_handler_raised (pending : List String)
    (slots : List (String × Option Resolution)) (raw : Raw) :
    (screenshot_handler pending slots raw).raised = false := by
  cases raw with
  | garbage => rfl
  | json parsed =>
    unfold screenshot_handler
    dsimp only
    cases getField parsed "id" with
    | none => rfl
    | some v =>
      cases v with
      | str msgId =>
        dsimp only
        by_cases hm : msgId ∈ pending
        · rw [if_pos hm]
          cases getField parsed "error" with
          | some v => cases v <;> rfl
          | none =>
            cases getField parsed "screenshot" <;> cases getField parsed "url" <;> rfl
        · rw [if_neg hm]
      | null => rfl
      | bool b => rfl
      | num n => rfl
      | arr xs => rfl
      | obj fields => rfl

theorem screenshot_handler_fresh (pending : List String)
    (slots : List (String × Option Resolution)) (raw : Raw)
    (hfresh : ∀ i, rawMsgId raw = some i → i ∉ pending) :
    screenshot_handler pending slots raw = ⟨pending, slots, true, false⟩ := by
  cases raw with
  | garbage => rfl
  | json parsed =>
    unfold screenshot_handler
    dsimp only
    cases hid : getField parsed "id" with
    | none => rfl
    | some v =>
      cases v with
      | str msgId =>
        dsimp only
        have : msgId ∉ pending := hfresh msgId (by simp [rawMsgId, hid])
        rw [if_neg this]
      | null => rfl
      | bool b => rfl
      | num n => rfl
      | arr xs => rfl
      | obj fields => rfl

/-- Claim C4 (amended): both registered consumer handlers acknowledge every
delivered message unconditionally — `_screenshot_handler` acks in a
`finally` clause after swallowing any processing error, and the streaming
callback acks before decoding — so a failing handler never causes
redelivery. -/
theorem c4_acks_unconditional (pending : List String)
    (slots : List (String × Option Resolution)) (raw : Raw) :
    (screenshot_handler pending slots raw).acked = true ∧
    (process_message raw).acked = true :=
  ⟨screenshot_handler_acked pending slots raw, process_message_acked raw⟩

/-- Claim C5: the correlator's consumer handler never propagates an
exception (every processing error is caught and logged), and on a message
whose id has no pending slot — or whose payload is undecodable or lacks a
usable id — it leaves the pending table and every slot untouched, so
subsequent deliveries are unaffected. -/
theorem c5_handler_never_raises (pending : List String)
    (slots : List (String × Option Resolution)) (raw : Raw) :
    (screenshot_handler pending slots raw).raised = false ∧
    ((∀ i, rawMsgId raw = some i → i ∉ pending) →
      screenshot_handler pending slots raw = ⟨pending, slots, true, false⟩) :=
  ⟨screenshot_handler_raised pending slots raw,
    screenshot_handler_fresh pending slots raw⟩

theorem c5_witness :
    (screenshot_handler ["m1"] [] Raw.garbage).raised = false ∧
    screenshot_handler ["m1"] [] Raw.garbage = ⟨["m1"], [], true, false⟩ := by
  have h := c5_handler_never_raises ["m1"] [] Raw.garbage
  exact ⟨h.1, h.2 (fun i hi => by simp [rawMsgId] at hi)⟩

theorem stream_loop_closed_eq_terminated (steps : List StreamStep)
    (buffered yielded : List Json) :
    (stream_loop steps buffered yielded).closed =
      (stream_loop steps buffered yielded).terminated := by
  induction steps generalizing buffered yielded with
  | nil => rfl
  | cons s rest ih =>
    unfold stream_loop
    dsimp only
    split
    · rfl
    · exact ih _ _

theorem stream_loop_terminated_of_disconnect (steps : List StreamStep)
    (buffered yielded : List Json) (h : ∃ s ∈ steps, s.disconnected = true) :
    (stream_loop steps buffered yielded).terminated = true := by
  induction steps generalizing buffered yielded with
  | nil => simp at h
  | cons s rest ih =>
    unfold stream_loop
    dsimp only
    split
    · rfl
    · rename_i hs
      rcases h with ⟨t, ht, hd⟩
      rcases List.mem_cons.mp ht with rfl | htr
      · exact absurd hd hs
      · exact ih _ _ ⟨t, htr, hd⟩

/-- Claim C9: the screenshot stream's forwarding loop closes the local
subscriber it opened exactly when it returns, and a client disconnect makes
it return; so whenever the stream ends on disconnect the reader has been
closed, and the loop never returns while still holding the reader. -/
theorem c9_stream_disconnect_closes (st : Bridge) (sid u : String)
    (steps : List StreamStep) :
    ((stream_screenshots st sid u steps).2).closed =
      ((stream_screenshots st sid u steps).2).terminated ∧
    ((∃ s ∈ steps, s.disconnected = true) →
      ((stream_screenshots st sid u steps).2).closed = true) := by
  unfold stream_screenshots
  dsimp only
  exact ⟨stream_loop_closed_eq_terminated _ _ _, fun h => by
    rw [stream_loop_closed_eq_terminated]
    exact stream_loop_terminated_of_disconnect _ _ _ h⟩

theorem c9_witness :
    ((stream_screenshots initBridge "s1" "u1" [StreamStep.mk true []]).2).closed = true ∧
    ((stream_screenshots initBridge "s1" "u1" [StreamStep.mk true []]).2).terminated = true := by
  have h := c9_stream_disconnect_closes initBridge "s1" "u1" [StreamStep.mk true []]
  have hd : ∃ s ∈ [StreamStep.mk true []], s.disconnected = true :=
    ⟨StreamStep.mk true [], by simp, rfl⟩
  exact ⟨h.2 hd, by rw [← h.1]; exact h.2 hd⟩

theorem create_topic_eq_of_mem (st : Bridge) (t : String) (h : t ∈ st.topics) :
    create_topic st t = st := by
  unfold create_topic; rw [if_pos h]

theorem create_topic_eq_of_not_mem (st : Bridge) (t : String) (h : t ∉ st.topics) :
    create_topic st t = { st with topics := st.topics ++ [t] } := by
  unfold create_topic; rw [if_neg h]

theorem start_session_topics_of_not_mem (st : Bridge) (sid u : String)
    (h1 : command_topic_path st.projectId sid ∉ st.topics)
    (h2 : screenshot_topic_path st.projectId sid ∉ st.topics)
    (hne : command_topic_path st.projectId sid ≠ screenshot_topic_path st.projectId sid) :
    (start_session st sid u).topics =
      st.topics ++ [command_topic_path st.projectId sid,
                    screenshot_topic_path st.projectId sid] := by
  unfold start_session
  dsimp only
  rw [start_subscriber_topics, create_topic_projectId,
    create_topic_eq_of_not_mem st _ h1]
  have hss : screenshot_topic_path st.projectId sid ∉
      st.topics ++ [command_topic_path st.projectId sid] := by
    intro hmem
    rcases List.mem_append.mp hmem with h | h
    · exact h2 h
    · exact hne (List.mem_singleton.mp h).symm
  rw [create_topic_eq_of_not_mem _ _ hss]
  simp

theorem start_session_topics_of_mem (st : Bridge) (sid u : String)
    (hc : command_topic_path st.projectId sid ∈ st.topics)
    (hs : screenshot_topic_path st.projectId sid ∈ st.topics) :
    (start_session st sid u).topics = st.topics := by
  unfold start_session
  dsimp only
  rw [start_subscriber_topics, create_topic_projectId,
    create_topic_eq_of_mem st _ hc, create_topic_eq_of_mem st _ hs]

/-- Claim C7: calling `start_session` twice for the same session id is
idempotent on transport resources — both calls return normally (errors on
already-existing resources are swallowed: `_create_topic` treats an
existing topic as success) and the commands topic and the screenshots
topic for the id are each created exactly once, never duplicated. -/
theorem c7_start_session_idempotent (st : Bridge) (sid u1 u2 : String)
    (h1 : command_topic_path st.projectId sid ∉ st.topics)
    (h2 : screenshot_topic_path st.projectId sid ∉ st.topics)
    (hne : command_topic_path st.projectId sid ≠ screenshot_topic_path st.projectId sid) :
    (start_session (start_session st sid u1) sid u2).topics =
      st.topics ++ [command_topic_path st.projectId sid,
                    screenshot_topic_path st.projectId sid] ∧
    ((start_session (start_session st sid u1) sid u2).topics).count
      (command_topic_path st.projectId sid) = 1 ∧
    ((start_session (start_session st sid u1) sid u2).topics).count
      (screenshot_topic_path st.projectId sid) = 1 := by
  have e1 := start_session_topics_of_not_mem st sid u1 h1 h2 hne
  have pid := start_session_projectId st sid u1
  have e2 : (start_session (start_session st sid u1) sid u2).topics =
      (start_session st sid u1).topics := by
    apply start_session_topics_of_mem
    · rw [pid, e1]; simp
    · rw [pid, e1]; simp
  have etot : (start_session (start_session st sid u1) sid u2).topics =
      st.topics ++ [command_topic_path st.projectId sid,
                    screenshot_topic_path st.projectId sid] := by
    rw [e2, e1]
  refine ⟨etot, ?_, ?_⟩
  · rw [etot, List.count_append]
    rw [List.count_eq_zero.mpr h1]
    simp [List.count_cons, hne]
  · rw [etot, List.count_append]
    rw [List.count_eq_zero.mpr h2]
    simp [List.count_cons, Ne.symm hne]

theorem c7_witness :
    (start_session (start_session initBridge "s1" "u1") "s1" "u2").topics =
      ["projects/p/topics/commands-s1", "projects/p/topics/screenshots-s1"] ∧
    ((start_session (start_session initBridge "s1" "u1") "s1" "u2").topics).count
      "projects/p/topics/commands-s1" = 1 ∧
    ((start_session (start_session initBridge "s1" "u1") "s1" "u2").topics).count
      "projects/p/topics/screenshots-s1" = 1 := by
  have h := c7_start_session_idempotent initBridge "s1" "u1" "u2"
    (by simp [initBridge]) (by simp [initBridge]) (by decide)
  exact h

theorem screenshot_handler_success (pending : List String)
    (slots : List (String × Option Resolution)) (msgId : String)
    (shot url : Json) (hmem : msgId ∈ pending) :
    screenshot_handler pending slots (resultPayload msgId shot url) =
      ⟨pending.erase msgId,
        setKey slots msgId (some (Resolution.success shot url)), true, false⟩ := by
  unfold screenshot_handler resultPayload
  simp [getField, lookupKey, hmem]

/-- Claim C1 (counterexample): a command submitted against a session id
that was never created (the empty bridge) does fail fast — but with the
`TypeError` raised by calling `publish_message` without its required
`timeout` argument (surfacing as HTTP 500), not with a "no such session"
error, and the bridge state is left completely untouched (no transport is
provisioned, nothing is published, nothing waits). -/
theorem c1_counterexample :
    (create_command initBridge "ghost" (Json.obj []) "m1").2 =
      CommandOutcome.typeError ∧
    (create_command initBridge "ghost" (Json.obj []) "m1").1 = initBridge :=
  ⟨rfl, rfl⟩

/-- Claim C1 (amended): command submission against a `GONE` or
never-created id fails fast and never blocks — but not with a
"no such session" error, which exists nowhere in the code: the endpoint
raises `TypeError` at the `publish_message` call (the required `timeout`
argument is missing) and returns HTTP 500 before the reconnect guard, any
publish, or any wait, leaving the bridge state unchanged.  (Submissions
against live ids fail identically; no session-existence check is ever
reached.) -/
theorem c1_unknown_session_fails_fast (st : Bridge) (sid : String)
    (commandData : Json) (msgId : String) (hsub : sid ∉ st.subscribers) :
    (create_command st sid commandData msgId).2 = CommandOutcome.typeError ∧
    (create_command st sid commandData msgId).1 = st :=
  ⟨rfl, rfl⟩

theorem c1_witness :
    "gone" ∉ initBridge.subscribers ∧
    (create_command initBridge "gone" Json.null "m2").2 =
      CommandOutcome.typeError ∧
    (create_command initBridge "gone" Json.null "m2").1 = initBridge := by
  have h := c1_unknown_session_fails_fast initBridge "gone" Json.null "m2"
    (by simp [initBridge])
  exact ⟨by simp [initBridge], h.1, h.2⟩

/-- Claim C2 (counterexample): a command for which no result is published
never produces the claimed 408 timed-out outcome, and no pending slot
exists to be removed: the submission raises `TypeError` at the
`publish_message` call (HTTP 500) before a pending entry is registered or
any wait begins. -/
theorem c2_counterexample :
    (create_command initBridge "s1" (Json.obj []) "m1").2 =
      CommandOutcome.typeError ∧
    (create_command initBridge "s1" (Json.obj []) "m1").2 ≠
      CommandOutcome.timeout ∧
    (create_command initBridge "s1" (Json.obj []) "m1").1.pending = [] :=
  ⟨rfl, by simp [create_command], rfl⟩

/-- Claim C2 (amended): no command ever reaches the timeout wait: the
submission raises `TypeError` (missing `timeout` argument) and surfaces as
HTTP 500 before a pending slot is registered, so the pending table is
unchanged, the 408 timed-out outcome is never produced, and a worker
result later carrying the command's id finds no pending slot and is
discarded by the consumer handler without error. -/
theorem c2_no_wait_no_slot (st : Bridge) (sid : String) (commandData : Json)
    (msgId : String) (shot url : Json) (hp : msgId ∉ st.pending) :
    (create_command st sid commandData msgId).2 = CommandOutcome.typeError ∧
    (create_command st sid commandData msgId).1.pending = st.pending ∧
    screenshot_handler (create_command st sid commandData msgId).1.pending
        (create_command st sid commandData msgId).1.slots
        (resultPayload msgId shot url) =
      ⟨(create_command st sid commandData msgId).1.pending,
        (create_command st sid commandData msgId).1.slots, true, false⟩ := by
  refine ⟨rfl, rfl, ?_⟩
  exact screenshot_handler_fresh _ _ _
    (by intro i hi
        simp [rawMsgId, resultPayload, getField, lookupKey] at hi
        subst hi
        exact hp)

theorem c2_witness :
    "m9" ∉ initBridge.pending ∧
    (create_command initBridge "s1" (Json.obj []) "m9").2 =
      CommandOutcome.typeError ∧
    (create_command initBridge "s1" (Json.obj []) "m9").1.pending = [] := by
  have h := c2_no_wait_no_slot initBridge "s1" (Json.obj []) "m9"
    (Json.str "PIC") (Json.str "http://x") (by simp [initBridge])
  exact ⟨by simp [initBridge], h.1, h.2.1⟩

/-- Claim C3 (code bug, evaluation at the failing input): submitting the
command `screenshot` on session `s1` raises `TypeError` at the
`publish_message` call (HTTP 500) — no pending slot is registered — so
when the worker's correlated result for the command's id arrives, the
consumer handler finds no pending slot and discards it: no caller ever
receives the result, although the correlation machinery itself
(`_screenshot_handler`, the pending table, the completion slot) is written
to deliver exactly that. -/
theorem c3_submission_raises_before_wait :
    (create_command initBridge "s1"
        (Json.obj [("name", Json.str "screenshot")]) "m1").2 =
      CommandOutcome.typeError ∧
    (create_command initBridge "s1"
        (Json.obj [("name", Json.str "screenshot")]) "m1").1.pending = [] ∧
    screenshot_handler
        (create_command initBridge "s1"
          (Json.obj [("name", Json.str "screenshot")]) "m1").1.pending
        (create_command initBridge "s1"
          (Json.obj [("name", Json.str "screenshot")]) "m1").1.slots
        (resultPayload "m1" (Json.str "PIC") (Json.str "http://x")) =
      ⟨[], [], true, false⟩ :=
  ⟨rfl, rfl, rfl⟩

/-- Claim C8 (counterexample): deleting a session publishes nothing at
all: the `DELETE` endpoint raises `TypeError` at the `publish_message`
call (missing `timeout` argument) before any publish, so no shutdown
message — in the claimed format or any other — reaches the transport, and
the publish log stays empty. -/
theorem c8_counterexample :
    (delete_session initBridge "s1" "m1").1.published = [] ∧
    (delete_session initBridge "s1" "m1").2 = DeleteOutcome.typeError :=
  ⟨rfl, rfl⟩

/-- Claim C8 (amended): every message `publish_message` itself hands to
the transport is the JSON object with fields `id`, `type`, `data` (`type`
being whatever kind the caller set on the `Message`), published with a
`message_id` attribute carrying the same id; but deleting a session
publishes no message at all: the endpoint raises `TypeError` before
reaching `publish_message`, leaving the publish log unchanged. -/
theorem c8_wire_format (st : Bridge) (sid : String) (msg : Message)
    (u : String) (fails : Bool) (sid2 msgId2 : String) :
    (publish_message st sid msg u fails).1.published =
      st.published ++
        [PubRecord.mk (command_topic_path st.projectId sid)
          (Json.obj [("id", Json.str msg.id), ("type", Json.str msg.type),
                     ("data", msg.data)])
          [("message_id", msg.id)]] ∧
    (delete_session st sid2 msgId2).1.published = st.published ∧
    (delete_session st sid2 msgId2).2 = DeleteOutcome.typeError := by
  refine ⟨?_, rfl, rfl⟩
  cases fails
  · rw [publish_message_ok_eq]
    dsimp only [Message.json]
  · rw [publish_message_fail_eq]
    dsimp only [Message.json]

theorem c8_witness :
    (publish_message initBridge "s1" (Message.mk "m1" "command" Json.null)
        "u1" false).1.published =
      [PubRecord.mk "projects/p/topics/commands-s1"
        (Json.obj [("id", Json.str "m1"), ("type", Json.str "command"),
                   ("data", Json.null)])
        [("message_id", "m1")]] ∧
    (delete_session initBridge "s2" "m2").1.published = [] := by
  have h := c8_wire_format initBridge "s1" (Message.mk "m1" "command" Json.null)
    "u1" false "s2" "m2"
  exact ⟨h.1, h.2.1⟩

/-- Claim C10 (counterexample): after `DELETE /sessions/s1` the shutdown
message's id is NOT in the pending table — the endpoint raises `TypeError`
before `publish_message` could insert it — and the `DELETE` never
succeeds. -/
theorem c10_counterexample :
    "m1" ∉ (delete_session initBridge "s1" "m1").1.pending ∧
    (delete_session initBridge "s1" "m1").2 ≠ DeleteOutcome.ok "s1" := by
  constructor
  · simp [delete_session, initBridge]
  · simp [delete_session]

/-- Claim C10 (amended): `publish_message` itself does register
`message.id` in the pending table when it runs, and the entry outlives a
successful publish; but `delete_session` never reaches `publish_message`:
the `DELETE` raises `TypeError` at the call, never returns its success
response, and leaves the pending table unchanged — no shutdown id is ever
left pending by a deletion. -/
theorem c10_publish_inserts_but_delete_raises (st : Bridge) (sid : String)
    (msg : Message) (u : String) (sid2 msgId2 : String) :
    msg.id ∈ (publish_message st sid msg u false).1.pending ∧
    (delete_session st sid2 msgId2).1.pending = st.pending ∧
    (delete_session st sid2 msgId2).2 = DeleteOutcome.typeError := by
  refine ⟨?_, rfl, rfl⟩
  rw [publish_message_ok_eq]
  dsimp only
  by_cases hm : msg.id ∈ st.pending
  · rw [if_pos hm]; exact hm
  · rw [if_neg hm]
    exact List.mem_append_right _ (List.mem_singleton.mpr rfl)

theorem c10_witness :
    "m1" ∈ (publish_message initBridge "s1"
        (Message.mk "m1" "command" (Json.str "shut_down")) "u1" false).1.pending ∧
    (delete_session initBridge "s2" "m2").1.pending = [] := by
  have h := c10_publish_inserts_but_delete_raises initBridge "s1"
    (Message.mk "m1" "command" (Json.str "shut_down")) "u1" "s2" "m2"
  exact ⟨h.1, h.2.1⟩

theorem c4_witness :
    (screenshot_handler [] [] Raw.garbage).acked = true ∧
    (process_message Raw.garbage).acked = true := by
  have h := c4_acks_unconditional [] [] Raw.garbage
  exact h
